import Mathlib

/-!
Verification of the seasonal display controller:
the season classifier (`season.js`) and the snow-animation
orchestrator (`snow.js`), shallowly embedded in Lean.
-/

set_option linter.unnecessarySeqFocus false

/-- A JavaScript value, as far as the season library inspects one:
strings, numbers (modelled as integers), booleans, `null`, `undefined`. -/
inductive JSVal where
  | vStr (s : String)
  | vNum (n : Int)
  | vBool (b : Bool)
  | vNull
  | vUndef
deriving DecidableEq, Repr

/-- JavaScript truthiness of a `JSVal` (empty string, 0, false, null,
undefined are falsy). -/
def truthy : JSVal → Bool
  | .vStr s => s ≠ ""
  | .vNum n => n ≠ 0
  | .vBool b => b
  | .vNull => false
  | .vUndef => false

/-- The `typeof x === "number"` check. -/
def isNum : JSVal → Bool
  | .vNum _ => true
  | _ => false

/-- The string a `JSVal` turns into when used as a property key. -/
def jsKeyString : JSVal → String
  | .vStr s => s
  | .vNum n => toString n
  | .vBool b => if b then "true" else "false"
  | .vNull => "null"
  | .vUndef => "undefined"

/-- The options object accepted by `getSeason`; an absent property is
`vUndef`. -/
structure SeasonOptions where
  calendarType : JSVal := .vUndef
  seasonType : JSVal := .vUndef
  hemisphere : JSVal := .vUndef
  countryCode : JSVal := .vUndef
  latitude : JSVal := .vUndef
  longitude : JSVal := .vUndef
  languageCulture : JSVal := .vUndef
deriving DecidableEq, Repr

/-- A JS `Date`, reduced to the fields the library reads
(`getMonth() + 1` and `getDate()`) plus the ignored ones
(year, time of day) so that insensitivity can be stated. -/
structure JSDate where
  year : Int
  month : Nat
  day : Nat
  hour : Nat
  minute : Nat
deriving DecidableEq, Repr

/-- `southernCountryCodes` from season.js. -/
def southernCountryCodes : List String :=
  ["AO","BW","BI","KM","LS","MG","MW","MU","MZ","NA","RW","SC","ZA","SZ","TZ","ZM","ZW",
   "CD","GA","CG",
   "TL","ID",
   "AU","PG",
   "AR","BO","CL","PY","PE","UY","BR","EC",
   "AS","CK","FJ","PF","NR","NC","NZ","NU","PN","WS","SB","TK","TO","TV","VU","WF",
   "FK","SH",
   "IO","YT","RE",
   "AQ","BV","TF","GS"]

/-- `toUpperCase()` on an ASCII string, written over the character list
so it reduces in the kernel. -/
def jsToUpper (s : String) : String :=
  String.mk (s.data.map Char.toUpper)

/-- `isSouthernCountry(countryCode)`: falsy input returns `false`;
a truthy string is uppercased and looked up; a truthy non-string
throws a TypeError at `.toUpperCase()`, modelled as `none`. -/
def isSouthernCountry (countryCode : JSVal) : Option Bool :=
  if truthy countryCode = false then some false
  else
    match countryCode with
    | .vStr s => some (southernCountryCodes.contains (jsToUpper s))
    | _ => none

/-- `inferHemisphere(options)`: explicit hemisphere string wins; then both
coordinates numeric; then southern-country code; default Northern.
`none` models a thrown TypeError (truthy non-string countryCode). -/
def inferHemisphere (options : SeasonOptions) : Option String :=
  if options.hemisphere = .vStr "Northern" ∨ options.hemisphere = .vStr "Southern" then
    some (jsKeyString options.hemisphere)
  else
    match options.latitude, options.longitude with
    | .vNum lat, .vNum _ => some (if lat ≥ 0 then "Northern" else "Southern")
    | _, _ =>
      if truthy options.countryCode then
        match isSouthernCountry options.countryCode with
        | some true => some "Southern"
        | some false => some "Northern"
        | none => none
      else some "Northern"

/-- Split a character list at each dash, as `split('-')` does. -/
def splitDash : List Char → List Char → List (List Char)
  | [], acc => [acc.reverse]
  | c :: cs, acc =>
    if c = '-' then acc.reverse :: splitDash cs []
    else splitDash cs (c :: acc)

/-- `Number` applied to a string of decimal digits. -/
def digitsToNat (cs : List Char) : Nat :=
  cs.foldl (fun n c => n * 10 + (c.toNat - 48)) 0

/-- `start.split('-').map(Number)` for an "MM-DD" string. -/
def parseMD (s : String) : Nat × Nat :=
  match splitDash s.data [] with
  | [a, b] => (digitsToNat a, digitsToNat b)
  | _ => (0, 0)

/-- `isDateInRange(date, start, end)` from season.js: inclusive
month*100+day comparison; a range whose start exceeds its end wraps
across the year boundary. -/
def isDateInRange (date : JSDate) (startStr endStr : String) : Bool :=
  let month := date.month
  let day := date.day
  let s := parseMD startStr
  let e := parseMD endStr
  let startNum := s.1 * 100 + s.2
  let endNum := e.1 * 100 + e.2
  let curNum := month * 100 + day
  if startNum ≤ endNum then
    decide (curNum ≥ startNum ∧ curNum ≤ endNum)
  else
    decide (curNum ≥ startNum ∨ curNum ≤ endNum)

/-- One entry of the season table: inclusive "MM-DD" start and end. -/
structure SeasonRange where
  start : String
  stop : String
deriving DecidableEq, Repr

/-- `seasonDefinitions` from season.js, with object property insertion
order kept as list order. -/
def seasonDefinitions : List (String × List (String × List (String × SeasonRange))) :=
  [("Astronomical",
     [("Northern",
        [("Spring", ⟨"03-21", "06-20"⟩),
         ("Summer", ⟨"06-21", "09-20"⟩),
         ("Autumn", ⟨"09-21", "12-20"⟩),
         ("Winter", ⟨"12-21", "03-20"⟩)]),
      ("Southern",
        [("Spring", ⟨"09-21", "12-20"⟩),
         ("Summer", ⟨"12-21", "03-20"⟩),
         ("Autumn", ⟨"03-21", "06-20"⟩),
         ("Winter", ⟨"06-21", "09-20"⟩)])]),
   ("Meteorological",
     [("Northern",
        [("Spring", ⟨"03-01", "05-31"⟩),
         ("Summer", ⟨"06-01", "08-31"⟩),
         ("Autumn", ⟨"09-01", "11-30"⟩),
         ("Winter", ⟨"12-01", "02-29"⟩)]),
      ("Southern",
        [("Spring", ⟨"09-01", "11-30"⟩),
         ("Summer", ⟨"12-01", "02-29"⟩),
         ("Autumn", ⟨"03-01", "05-31"⟩),
         ("Winter", ⟨"06-01", "08-31"⟩)])])]

/-- The property key `getSeason` uses for the calendar type: the
destructuring default "Astronomical" applies only when the property is
`undefined`. -/
def calKey (options : SeasonOptions) : String :=
  match options.calendarType with
  | .vUndef => "Astronomical"
  | v => jsKeyString v

/-- `getSeason(date, options)`: resolve hemisphere, index the nested
table, return the first season whose range contains the date, else
"Unknown". `none` models a thrown TypeError (hemisphere inference
throwing, or indexing `undefined` when the calendar type is not a key
of the table). -/
def getSeason (date : JSDate) (options : SeasonOptions) : Option String := do
  let hemisphere ← inferHemisphere options
  let defs ← (seasonDefinitions.lookup (calKey options)).bind (·.lookup hemisphere)
  match defs.find? (fun p => isDateInRange date p.2.start p.2.stop) with
  | some p => pure p.1
  | none => pure "Unknown"

/-- Number of days in each month (February has 29: every possible
calendar (month, day) pair, leap years included). -/
def daysInMonth : Nat → Nat
  | 1 => 31 | 2 => 29 | 3 => 31 | 4 => 30
  | 5 => 31 | 6 => 30 | 7 => 31 | 8 => 31
  | 9 => 30 | 10 => 31 | 11 => 30 | 12 => 31
  | _ => 0

/-- A valid calendar (month, day) pair; there are 366 of them. -/
def validMD (m d : Nat) : Prop :=
  1 ≤ m ∧ m ≤ 12 ∧ 1 ≤ d ∧ d ≤ daysInMonth m

instance (m d : Nat) : Decidable (validMD m d) := by
  unfold validMD; infer_instance

/-- How many of the four ranges of the (calendarType, hemisphere) table
contain the given date; `none` when that table does not exist. -/
def matchCount (date : JSDate) (ct hem : String) : Option Nat :=
  ((seasonDefinitions.lookup ct).bind (·.lookup hem)).map
    (fun defs => (defs.filter (fun p => isDateInRange date p.2.start p.2.stop)).length)

/-- Exactly one range of the (ct, hem) table matches the date, and
getSeason returns one of the four season names there. -/
def seasonOK (m d : Nat) (ct hem : String) : Prop :=
  matchCount ⟨2024, m, d, 0, 0⟩ ct hem = some 1 ∧
  (getSeason ⟨2024, m, d, 0, 0⟩ { calendarType := .vStr ct, hemisphere := .vStr hem } ∈
    ([some "Spring", some "Summer", some "Autumn", some "Winter"] : List (Option String)))

instance (m d : Nat) (ct hem : String) : Decidable (seasonOK m d ct hem) := by
  unfold seasonOK; infer_instance

/- ===================== snow.js orchestrator ===================== -/

/-- A message posted to the snowfall worker. -/
inductive WorkerMsg where
  | canvas
  | start
  | stop
  | resize (innerWidth innerHeight : Nat)
deriving DecidableEq, Repr

/-- The animation lifecycle state the orchestrator drives. -/
inductive AnimState where
  | Stopped
  | Running
deriving DecidableEq, Repr

/-- Observable state of the page orchestrator: the animation state, the
document title, the log of messages posted to the worker, which snow
radio control is checked, and whether the toggle is hidden. -/
structure OrchState where
  anim : AnimState
  title : String
  msgs : List WorkerMsg
  checked : Option String
  toggleHidden : Bool
deriving DecidableEq, Repr

/-- `changeSnowAnimation(animationName)` from snow.js: "none" stops
(posts stop, restores the plain title), "snowfall" starts (posts start,
puts the snowflake indicator before the title), anything else — the
`null` read included — does nothing. `animationName = none` models the
JS `null`. -/
def changeSnowAnimation (pageTitle : String) (animationName : Option String)
    (s : OrchState) : OrchState :=
  if animationName = some "none" then
    { s with anim := .Stopped, msgs := s.msgs ++ [.stop], title := pageTitle }
  else if animationName = some "snowfall" then
    { s with anim := .Running, msgs := s.msgs ++ [.start], title := "❄️ " ++ pageTitle }
  else s

/-- The initial-decision part of `window.onload` (after the worker
handshake): restore a truthy stored preference, else default to
snowfall in winter, else do nothing; then set the toggle's visibility.
`controls` lists the values of the radio controls present in the
markup; checking a control whose value is absent from the markup is the
JS `querySelector(...) = null` followed by a thrown TypeError, modelled
as `none`. `stored = none` models a `null` localStorage read. -/
def initSnow (pageTitle : String) (controls : List String) (isWinter : Bool)
    (stored : Option String) (s : OrchState) : Option OrchState :=
  let storedTruthy := match stored with
    | some v => v ≠ ""
    | none => false
  let afterDecision : Option OrchState :=
    if isWinter && storedTruthy then
      match stored with
      | some v =>
        if controls.contains v then
          some (changeSnowAnimation pageTitle (some v) { s with checked := some v })
        else none
      | none => none
    else if isWinter then
      if controls.contains "snowfall" then
        some (changeSnowAnimation pageTitle (some "snowfall")
          { s with checked := some "snowfall" })
      else none
    else some s
  afterDecision.map (fun s => { s with toggleHidden := !isWinter })

/-- The radio `change` listener: persist the control's value under the
storage key, then apply it. Returns the new stored value and state. -/
def radioChange (pageTitle : String) (value : String) (s : OrchState) :
    Option String × OrchState :=
  (some value, changeSnowAnimation pageTitle (some value) s)

/-- The `storage` listener (fires in other tabs): re-read the stored
preference and apply it. -/
def storageFired (pageTitle : String) (stored : Option String) (s : OrchState) : OrchState :=
  changeSnowAnimation pageTitle stored s

/-- `throttle(func, wait)` run over a chronological list of events,
each a time paired with a payload. The state is the time at which the
`waiting` flag resets (`none` before the first event, since `waiting`
starts false and `setTimeout` has not been armed). An event while
`waiting` is dropped — never queued, never flushed at window end;
otherwise it is forwarded and `waiting` is set for `wait` ms. Returns
the forwarded events. -/
def throttleRun {α : Type} (wait : Nat) : Option Nat → List (Nat × α) → List (Nat × α)
  | _, [] => []
  | none, ev :: ts => ev :: throttleRun wait (some (ev.1 + wait)) ts
  | some e, ev :: ts =>
    if ev.1 < e then throttleRun wait (some e) ts
    else ev :: throttleRun wait (some (ev.1 + wait)) ts

/-- The throttled resize listener of snow.js: each forwarded resize
event posts one resize message carrying the viewport read at that
moment; the wait is 33 ms. Each event is (time, (innerWidth,
innerHeight)). -/
def resizeMsgs (events : List (Nat × Nat × Nat)) : List WorkerMsg :=
  (throttleRun 33 none events).map (fun ev => .resize ev.2.1 ev.2.2)

/- ===================== theorems ===================== -/

/-- Claim C2, counterexample: with the unrecognized calendarType
"Gregorian", getSeason throws a TypeError (indexing `undefined` with
the hemisphere), modelled `none` — it does not return "Unknown". -/
theorem getSeason_gregorian_cex :
    getSeason ⟨2024, 3, 15, 0, 0⟩ { calendarType := .vStr "Gregorian" } = none ∧
    getSeason ⟨2024, 3, 15, 0, 0⟩ { calendarType := .vStr "Gregorian" } ≠ some "Unknown" := by
  decide

/-- Claim C2 (amended): for every date and every options value whose
calendar-type key is not "Astronomical" or "Meteorological", getSeason
throws a TypeError (modelled `none`) instead of returning "Unknown" or
any season. -/
theorem getSeason_unknownCalendarType_throws (d : JSDate) (o : SeasonOptions)
    (h1 : calKey o ≠ "Astronomical") (h2 : calKey o ≠ "Meteorological") :
    getSeason d o = none := by
  have e1 : (calKey o == "Astronomical") = false := beq_eq_false_iff_ne.mpr h1
  have e2 : (calKey o == "Meteorological") = false := beq_eq_false_iff_ne.mpr h2
  unfold getSeason
  cases hh : inferHemisphere o with
  | none => rfl
  | some hem =>
    simp [seasonDefinitions, List.lookup, e1, e2, Option.bind]

/-- Claim C2 amended-theorem witness at calendarType "Gregorian". -/
theorem getSeason_unknownCalendarType_throws_witness :
    getSeason ⟨2024, 3, 15, 0, 0⟩ { calendarType := .vStr "Gregorian" } = none :=
  getSeason_unknownCalendarType_throws ⟨2024, 3, 15, 0, 0⟩
    { calendarType := .vStr "Gregorian" } (by decide) (by decide)

/-- Claim C3, counterexample: `resolve(\x7blatitude:-5, countryCode:"US"\x7d)`
returns "Northern", not "Southern" as the claim states — the
coordinate rule needs both latitude and longitude to be numbers, and
"US" is not in the southern-country set. -/
theorem inferHemisphere_latOnly_cex :
    inferHemisphere { latitude := .vNum (-5), countryCode := .vStr "US" } = some "Northern" ∧
    inferHemisphere { latitude := .vNum (-5), countryCode := .vStr "US" } ≠ some "Southern" := by
  decide

/-- Claim C8, counterexample: a truthy non-string countryCode (here the
number 5) makes inferHemisphere throw a TypeError at `.toUpperCase()`,
modelled `none` — it does not return "Northern" or "Southern". -/
theorem inferHemisphere_nonstringCC_cex :
    inferHemisphere { countryCode := .vNum 5 } = none ∧
    inferHemisphere { countryCode := .vNum 5 } ≠ some "Northern" ∧
    inferHemisphere { countryCode := .vNum 5 } ≠ some "Southern" := by
  decide

/-- Claim C10: applying a preference value that is neither "snowfall"
nor "none" — the `null` read included — is a complete no-op: no
worker message, title untouched, state identical; in particular the
storage listener firing after the key was removed changes nothing. -/
theorem changeSnowAnimation_noop (pageTitle : String) (name : Option String)
    (s sB : OrchState) (h1 : name ≠ some "snowfall") (h2 : name ≠ some "none") :
    changeSnowAnimation pageTitle name s = s ∧ storageFired pageTitle none sB = sB := by
  constructor
  · unfold changeSnowAnimation
    rw [if_neg h2, if_neg h1]
  · unfold storageFired changeSnowAnimation
    rw [if_neg (by simp), if_neg (by simp)]

/-- Claim C10 witness at the value "confetti" and the `null` read. -/
theorem changeSnowAnimation_noop_witness :
    changeSnowAnimation "t" (some "confetti") ⟨.Stopped, "t", [], none, false⟩ =
      ⟨.Stopped, "t", [], none, false⟩ ∧
    storageFired "t" none ⟨.Stopped, "t", [], none, false⟩ =
      ⟨.Stopped, "t", [], none, false⟩ :=
  changeSnowAnimation_noop "t" (some "confetti") ⟨.Stopped, "t", [], none, false⟩
    ⟨.Stopped, "t", [], none, false⟩ (by decide) (by decide)

/-- Claim C9: getSeason depends only on the date's month and day and on
the calendarType, hemisphere, countryCode, latitude and longitude
options — the year, the time of day, and the seasonType and
languageCulture options have no effect. -/
theorem getSeason_dependsOnlyOn_monthDay (d1 d2 : JSDate) (o1 o2 : SeasonOptions)
    (hm : d1.month = d2.month) (hd : d1.day = d2.day)
    (hct : o1.calendarType = o2.calendarType)
    (hh : o1.hemisphere = o2.hemisphere)
    (hcc : o1.countryCode = o2.countryCode)
    (hlat : o1.latitude = o2.latitude)
    (hlon : o1.longitude = o2.longitude) :
    getSeason d1 o1 = getSeason d2 o2 := by
  obtain ⟨y1, m1, dd1, hh1, mi1⟩ := d1
  obtain ⟨y2, m2, dd2, hh2, mi2⟩ := d2
  obtain ⟨ct1, st1, hem1, cc1, lat1, lon1, lc1⟩ := o1
  obtain ⟨ct2, st2, hem2, cc2, lat2, lon2, lc2⟩ := o2
  simp_all only
  subst hm hd hct hh hcc hlat hlon
  rfl

/-- Claim C9 witness: changing only the year, time of day, seasonType
and languageCulture leaves the result unchanged. -/
theorem getSeason_dependsOnlyOn_monthDay_witness :
    getSeason ⟨2024, 12, 25, 0, 0⟩ {} =
      getSeason ⟨1999, 12, 25, 23, 59⟩
        { seasonType := .vStr "Special", languageCulture := .vStr "en-US" } :=
  getSeason_dependsOnlyOn_monthDay ⟨2024, 12, 25, 0, 0⟩ ⟨1999, 12, 25, 23, 59⟩ {}
    { seasonType := .vStr "Special", languageCulture := .vStr "en-US" }
    rfl rfl rfl rfl rfl rfl rfl

/-- Claim C4: range membership is the inclusive month*100+day
comparison, a wrapping range (start > end numerically) matches iff
current >= start or current <= end, and consequently: with default
options Dec-25, Jan-15 and Mar-20 are Winter and Mar-21 is Spring;
Mar-01 is Spring under Meteorological but Winter under the
Astronomical default; Dec-25 in the Southern hemisphere is Summer. -/
theorem isDateInRange_wrap_spec :
    (∀ (date : JSDate) (a b : String),
      (parseMD a).1 * 100 + (parseMD a).2 ≤ (parseMD b).1 * 100 + (parseMD b).2 →
      (isDateInRange date a b = true ↔
        (parseMD a).1 * 100 + (parseMD a).2 ≤ date.month * 100 + date.day ∧
        date.month * 100 + date.day ≤ (parseMD b).1 * 100 + (parseMD b).2)) ∧
    (∀ (date : JSDate) (a b : String),
      (parseMD b).1 * 100 + (parseMD b).2 < (parseMD a).1 * 100 + (parseMD a).2 →
      (isDateInRange date a b = true ↔
        (parseMD a).1 * 100 + (parseMD a).2 ≤ date.month * 100 + date.day ∨
        date.month * 100 + date.day ≤ (parseMD b).1 * 100 + (parseMD b).2)) ∧
    getSeason ⟨2024, 12, 25, 0, 0⟩ {} = some "Winter" ∧
    getSeason ⟨2024, 1, 15, 0, 0⟩ {} = some "Winter" ∧
    getSeason ⟨2024, 3, 20, 0, 0⟩ {} = some "Winter" ∧
    getSeason ⟨2024, 3, 21, 0, 0⟩ {} = some "Spring" ∧
    getSeason ⟨2024, 3, 1, 0, 0⟩ { calendarType := .vStr "Meteorological" } = some "Spring" ∧
    getSeason ⟨2024, 3, 1, 0, 0⟩ {} = some "Winter" ∧
    getSeason ⟨2024, 12, 25, 0, 0⟩ { hemisphere := .vStr "Southern" } = some "Summer" := by
  refine ⟨?_, ?_, by decide, by decide, by decide, by decide, by decide, by decide, by decide⟩
  · intro date a b h
    simp only [isDateInRange, if_pos h, decide_eq_true_eq, ge_iff_le]
  · intro date a b h
    simp only [isDateInRange, if_neg (Nat.not_le.mpr h), decide_eq_true_eq, ge_iff_le]

/-- Claim C4 witness: Jan-15 is inside the wrapping Winter range, and
May-10 is inside the non-wrapping Spring range. -/
theorem isDateInRange_wrap_spec_witness :
    isDateInRange ⟨2024, 1, 15, 0, 0⟩ "12-21" "03-20" = true ∧
    isDateInRange ⟨2024, 5, 10, 0, 0⟩ "03-21" "06-20" = true :=
  ⟨(isDateInRange_wrap_spec.2.1 ⟨2024, 1, 15, 0, 0⟩ "12-21" "03-20" (by decide)).mpr
      (by decide),
   (isDateInRange_wrap_spec.1 ⟨2024, 5, 10, 0, 0⟩ "03-21" "06-20" (by decide)).mpr
      (by decide)⟩

/-- Claim C7: after a toggle with value "snowfall" the persisted
preference reads back "snowfall" and applying it — in the same tab via
the change handler, or in another tab via the storage notification —
yields Running with the title carrying the snowflake indicator; with
"none" it reads back "none" and yields Stopped with the original
unprefixed title. -/
theorem preference_roundTrip (pageTitle : String) (s sB : OrchState) :
    ((radioChange pageTitle "snowfall" s).1 = some "snowfall" ∧
     (radioChange pageTitle "snowfall" s).2.anim = .Running ∧
     (radioChange pageTitle "snowfall" s).2.title = "❄️ " ++ pageTitle ∧
     (radioChange pageTitle "snowfall" s).2.msgs = s.msgs ++ [.start] ∧
     storageFired pageTitle (radioChange pageTitle "snowfall" s).1 sB =
       { sB with
          anim := .Running
          msgs := sB.msgs ++ [.start]
          title := "❄️ " ++ pageTitle }) ∧
    ((radioChange pageTitle "none" s).1 = some "none" ∧
     (radioChange pageTitle "none" s).2.anim = .Stopped ∧
     (radioChange pageTitle "none" s).2.title = pageTitle ∧
     (radioChange pageTitle "none" s).2.msgs = s.msgs ++ [.stop] ∧
     storageFired pageTitle (radioChange pageTitle "none" s).1 sB =
       { sB with anim := .Stopped, msgs := sB.msgs ++ [.stop], title := pageTitle }) := by
  simp [radioChange, storageFired, changeSnowAnimation]

/-- Claim C5: at initialization from the Stopped state, when it is
winter a stored "snowfall" is restored (control checked, Running,
indicator on the title), a stored "none" is restored (control checked,
Stopped, plain title), an absent preference defaults to "snowfall";
when it is not winter nothing is applied for any stored value, and the
toggle is hidden. -/
theorem initSnow_spec (pageTitle : String) (controls : List String) (s : OrchState)
    (hsnow : "snowfall" ∈ controls) (hnone : "none" ∈ controls) :
    (initSnow pageTitle controls true (some "snowfall") s =
      some { s with
              anim := .Running
              msgs := s.msgs ++ [.start]
              title := "❄️ " ++ pageTitle
              checked := some "snowfall"
              toggleHidden := false }) ∧
    (initSnow pageTitle controls true (some "none") s =
      some { s with
              anim := .Stopped
              msgs := s.msgs ++ [.stop]
              title := pageTitle
              checked := some "none"
              toggleHidden := false }) ∧
    (initSnow pageTitle controls true none s =
      some { s with
              anim := .Running
              msgs := s.msgs ++ [.start]
              title := "❄️ " ++ pageTitle
              checked := some "snowfall"
              toggleHidden := false }) ∧
    (∀ stored, initSnow pageTitle controls false stored s =
      some { s with toggleHidden := true }) := by
  refine ⟨?_, ?_, ?_, fun stored => ?_⟩ <;>
    simp [initSnow, changeSnowAnimation, hsnow, hnone]

/-- Claim C5 witness with the markup offering both controls. -/
theorem initSnow_spec_witness :
    initSnow "t" ["snowfall", "none"] true (some "none") ⟨.Stopped, "t", [], none, false⟩ =
      some ⟨.Stopped, "t", [.stop], some "none", false⟩ ∧
    initSnow "t" ["snowfall", "none"] true none ⟨.Stopped, "t", [], none, false⟩ =
      some ⟨.Running, "❄️ t", [.start], some "snowfall", false⟩ ∧
    initSnow "t" ["snowfall", "none"] false (some "snowfall") ⟨.Stopped, "t", [], none, false⟩ =
      some ⟨.Stopped, "t", [], none, true⟩ :=
  ⟨((initSnow_spec "t" ["snowfall", "none"] ⟨.Stopped, "t", [], none, false⟩
      (by decide) (by decide)).2.1).trans (by decide),
   ((initSnow_spec "t" ["snowfall", "none"] ⟨.Stopped, "t", [], none, false⟩
      (by decide) (by decide)).2.2.1).trans (by decide),
   ((initSnow_spec "t" ["snowfall", "none"] ⟨.Stopped, "t", [], none, false⟩
      (by decide) (by decide)).2.2.2 (some "snowfall")).trans (by decide)⟩

/-- getSeason reads only the month and day of the date: helper equality
used to transport facts across year and time-of-day. -/
theorem getSeason_month_day_only (y1 y2 : Int) (m d h1 h2 mi1 mi2 : Nat)
    (o : SeasonOptions) :
    getSeason ⟨y1, m, d, h1, mi1⟩ o = getSeason ⟨y2, m, d, h2, mi2⟩ o := rfl

/-- matchCount reads only the month and day of the date. -/
theorem matchCount_month_day_only (y1 y2 : Int) (m d h1 h2 mi1 mi2 : Nat)
    (ct hem : String) :
    matchCount ⟨y1, m, d, h1, mi1⟩ ct hem = matchCount ⟨y2, m, d, h2, mi2⟩ ct hem := rfl

/-- Exhaustive check of all 366 valid dates against all four
(calendarType, hemisphere) tables. -/
theorem seasonTable_core : ∀ m, m < 13 → ∀ d, d < 32 → validMD m d →
    seasonOK m d "Astronomical" "Northern" ∧ seasonOK m d "Astronomical" "Southern" ∧
    seasonOK m d "Meteorological" "Northern" ∧ seasonOK m d "Meteorological" "Southern" := by
  decide

/-- Claim C1: for every valid calendar (month, day) pair and every
combination of calendarType in Astronomical/Meteorological and
hemisphere in Northern/Southern, exactly one of the four ranges
matches (the tables partition all 366 dates with no gaps and no
overlaps) and getSeason returns one of Spring, Summer, Autumn, Winter
— the Unknown fallback is unreachable for these inputs. -/
theorem getSeason_partition (y : Int) (m d hh mi : Nat) (hmd : validMD m d)
    (ct hem : String)
    (hct : ct = "Astronomical" ∨ ct = "Meteorological")
    (hhem : hem = "Northern" ∨ hem = "Southern") :
    matchCount ⟨y, m, d, hh, mi⟩ ct hem = some 1 ∧
    (getSeason ⟨y, m, d, hh, mi⟩ { calendarType := .vStr ct, hemisphere := .vStr hem } ∈
      ([some "Spring", some "Summer", some "Autumn", some "Winter"] :
        List (Option String))) ∧
    getSeason ⟨y, m, d, hh, mi⟩ { calendarType := .vStr ct, hemisphere := .vStr hem } ≠
      some "Unknown" := by
  have hmd' := hmd
  unfold validMD at hmd'
  have hm : m < 13 := by omega
  have hdm : daysInMonth m ≤ 31 := by
    have h31 : ∀ m', m' < 13 → daysInMonth m' ≤ 31 := by decide
    exact h31 m hm
  have hd : d < 32 := by omega
  have core := seasonTable_core m hm d hd hmd
  have hsok : seasonOK m d ct hem := by
    rcases hct with rfl | rfl <;> rcases hhem with rfl | rfl
    · exact core.1
    · exact core.2.1
    · exact core.2.2.1
    · exact core.2.2.2
  unfold seasonOK at hsok
  have he : getSeason ⟨y, m, d, hh, mi⟩
      { calendarType := .vStr ct, hemisphere := .vStr hem } =
      getSeason ⟨2024, m, d, 0, 0⟩
      { calendarType := .vStr ct, hemisphere := .vStr hem } :=
    getSeason_month_day_only y 2024 m d hh 0 mi 0 _
  have hc : matchCount ⟨y, m, d, hh, mi⟩ ct hem =
      matchCount ⟨2024, m, d, 0, 0⟩ ct hem :=
    matchCount_month_day_only y 2024 m d hh 0 mi 0 ct hem
  refine ⟨hc ▸ hsok.1, he ▸ hsok.2, ?_⟩
  intro hcontra
  rw [he] at hcontra
  rw [hcontra] at hsok
  exact absurd hsok.2 (by decide)

/-- Claim C1 witness at the leap day Feb-29, Northern Astronomical. -/
theorem getSeason_partition_witness :
    matchCount ⟨2024, 2, 29, 0, 0⟩ "Astronomical" "Northern" = some 1 ∧
    (getSeason ⟨2024, 2, 29, 0, 0⟩
      { calendarType := .vStr "Astronomical", hemisphere := .vStr "Northern" } ∈
      ([some "Spring", some "Summer", some "Autumn", some "Winter"] :
        List (Option String))) ∧
    getSeason ⟨2024, 2, 29, 0, 0⟩
      { calendarType := .vStr "Astronomical", hemisphere := .vStr "Northern" } ≠
      some "Unknown" :=
  getSeason_partition 2024 2 29 0 0 (by decide) "Astronomical" "Northern"
    (Or.inl rfl) (Or.inl rfl)

/-- While the waiting latch is set past every arriving event's time,
every event is dropped. -/
theorem throttleRun_drop {α : Type} (wait e : Nat) (evs : List (Nat × α))
    (h : ∀ ev ∈ evs, ev.1 < e) : throttleRun wait (some e) evs = [] := by
  induction evs with
  | nil => rfl
  | cons ev ts ih =>
    simp only [throttleRun]
    rw [if_pos (h ev (List.mem_cons_self ev ts))]
    exact ih (fun ev2 h2 => h ev2 (List.mem_cons_of_mem ev h2))

/-- Events whose consecutive gaps are at least the wait, starting at or
after the latch expiry, are all forwarded. -/
theorem throttleRun_all {α : Type} (wait : Nat) (evs : List (Nat × α)) (e : Nat)
    (hchain : List.Chain' (fun a b => a.1 + wait ≤ b.1) evs)
    (hhead : ∀ ev ∈ evs.head?, e ≤ ev.1) :
    throttleRun wait (some e) evs = evs := by
  induction evs generalizing e with
  | nil => rfl
  | cons ev ts ih =>
    obtain ⟨hrel, htail⟩ := List.chain'_cons'.mp hchain
    have h1 : e ≤ ev.1 := hhead ev rfl
    simp only [throttleRun]
    rw [if_neg (Nat.not_lt.mpr h1)]
    rw [ih (ev.1 + wait) htail (fun ev2 h2 => hrel ev2 h2)]

/-- Claim C6: the resize throttle is leading-edge only with a 33 ms
window — any number of resize events inside one window forward exactly
the first one as a single resize message (the rest are dropped, never
queued or flushed), while events each spaced beyond the window all
forward, one message per event. -/
theorem resize_throttle_spec :
    (∀ (t0 : Nat) (v : Nat × Nat) (evs : List (Nat × Nat × Nat)),
      (∀ ev ∈ evs, ev.1 < t0 + 33) →
      resizeMsgs ((t0, v) :: evs) = [.resize v.1 v.2] ∧
      (resizeMsgs ((t0, v) :: evs)).length = 1) ∧
    (∀ evs : List (Nat × Nat × Nat),
      List.Chain' (fun a b => a.1 + 33 < b.1) evs →
      resizeMsgs evs = evs.map (fun ev => .resize ev.2.1 ev.2.2) ∧
      (resizeMsgs evs).length = evs.length) := by
  constructor
  · intro t0 v evs h
    have hrun : throttleRun 33 none ((t0, v) :: evs) = [(t0, v)] := by
      simp only [throttleRun]
      rw [throttleRun_drop 33 (t0 + 33) evs h]
    constructor
    · simp [resizeMsgs, hrun]
    · simp [resizeMsgs, hrun]
  · intro evs h
    have hrun : throttleRun 33 none evs = evs := by
      cases evs with
      | nil => rfl
      | cons ev ts =>
        obtain ⟨hrel, htail⟩ :=
          List.chain'_cons'.mp (h.imp (fun a b hab => Nat.le_of_lt hab))
        simp only [throttleRun]
        rw [throttleRun_all 33 ts (ev.1 + 33) htail hrel]
    constructor
    · simp [resizeMsgs, hrun]
    · simp [resizeMsgs, hrun]

/-- Claim C6 witness: three events inside one window forward one
message; three events spaced beyond the window forward three. -/
theorem resize_throttle_spec_witness :
    resizeMsgs [(0, 800, 600), (10, 810, 600), (20, 820, 600)] = [.resize 800 600] ∧
    (resizeMsgs [(0, 800, 600), (10, 810, 600), (20, 820, 600)]).length = 1 ∧
    resizeMsgs [(0, 800, 600), (40, 810, 600), (80, 820, 600)] =
      [.resize 800 600, .resize 810 600, .resize 820 600] ∧
    (resizeMsgs [(0, 800, 600), (40, 810, 600), (80, 820, 600)]).length = 3 :=
  ⟨(resize_throttle_spec.1 0 (800, 600) [(10, 810, 600), (20, 820, 600)] (by decide)).1,
   (resize_throttle_spec.1 0 (800, 600) [(10, 810, 600), (20, 820, 600)] (by decide)).2,
   (resize_throttle_spec.2 [(0, 800, 600), (40, 810, 600), (80, 820, 600)]
     (by norm_num [List.chain'_cons, List.chain'_singleton])).1,
   (resize_throttle_spec.2 [(0, 800, 600), (40, 810, 600), (80, 820, 600)]
     (by norm_num [List.chain'_cons, List.chain'_singleton])).2⟩

/-- When the explicit-hemisphere rule and the coordinate rule both fail
to apply, inferHemisphere reduces to the country-code step. -/
theorem inferHemisphere_fallthrough (o : SeasonOptions)
    (h1 : o.hemisphere ≠ .vStr "Northern") (h2 : o.hemisphere ≠ .vStr "Southern")
    (hcoord : (isNum o.latitude && isNum o.longitude) = false) :
    inferHemisphere o =
      (if truthy o.countryCode then
        match isSouthernCountry o.countryCode with
        | some true => some "Southern"
        | some false => some "Northern"
        | none => none
      else some "Northern") := by
  have hcond : ¬(o.hemisphere = .vStr "Northern" ∨ o.hemisphere = .vStr "Southern") := by
    rintro (h | h)
    · exact h1 h
    · exact h2 h
  cases hla : o.latitude <;> cases hlo : o.longitude <;>
    rw [hla, hlo] at hcoord <;> simp [isNum] at hcoord <;>
    simp [inferHemisphere, hcond, hla, hlo]

/-- Claim C3 (amended): hemisphere resolution follows the fixed
precedence, first match wins — an explicit "Northern"/"Southern"
hemisphere wins; otherwise, when latitude AND longitude are both
numbers, latitude >= 0 gives Northern, else Southern, regardless of
countryCode; otherwise a string countryCode matching the
Southern-country set case-insensitively gives Southern; otherwise
Northern. In particular an options value with latitude -5 but no
longitude falls through the coordinate rule: with countryCode "US" it
resolves Northern, and only with a longitude supplied does it resolve
Southern. -/
theorem inferHemisphere_precedence :
    (∀ o : SeasonOptions, o.hemisphere = .vStr "Northern" →
      inferHemisphere o = some "Northern") ∧
    (∀ o : SeasonOptions, o.hemisphere = .vStr "Southern" →
      inferHemisphere o = some "Southern") ∧
    (∀ (o : SeasonOptions) (lat : Int),
      o.hemisphere ≠ .vStr "Northern" → o.hemisphere ≠ .vStr "Southern" →
      o.latitude = .vNum lat → isNum o.longitude = true →
      inferHemisphere o = some (if lat ≥ 0 then "Northern" else "Southern")) ∧
    (∀ (o : SeasonOptions) (cc : String),
      o.hemisphere ≠ .vStr "Northern" → o.hemisphere ≠ .vStr "Southern" →
      (isNum o.latitude && isNum o.longitude) = false →
      o.countryCode = .vStr cc →
      southernCountryCodes.contains (jsToUpper cc) = true →
      inferHemisphere o = some "Southern") ∧
    (∀ (o : SeasonOptions) (cc : String),
      o.hemisphere ≠ .vStr "Northern" → o.hemisphere ≠ .vStr "Southern" →
      (isNum o.latitude && isNum o.longitude) = false →
      o.countryCode = .vStr cc →
      southernCountryCodes.contains (jsToUpper cc) = false →
      inferHemisphere o = some "Northern") ∧
    (∀ o : SeasonOptions,
      o.hemisphere ≠ .vStr "Northern" → o.hemisphere ≠ .vStr "Southern" →
      (isNum o.latitude && isNum o.longitude) = false →
      truthy o.countryCode = false →
      inferHemisphere o = some "Northern") ∧
    inferHemisphere { hemisphere := .vStr "Southern", latitude := .vNum 10 } =
      some "Southern" ∧
    inferHemisphere
      { latitude := .vNum (-5)
        longitude := .vNum 0
        countryCode := .vStr "US" } = some "Southern" ∧
    inferHemisphere { latitude := .vNum (-5), countryCode := .vStr "US" } =
      some "Northern" ∧
    inferHemisphere { countryCode := .vStr "ZA" } = some "Southern" ∧
    inferHemisphere ({} : SeasonOptions) = some "Northern" := by
  refine ⟨?_, ?_, ?_, ?_, ?_, ?_, by decide, by decide, by decide, by decide, by decide⟩
  · intro o h
    simp [inferHemisphere, h, jsKeyString]
  · intro o h
    simp [inferHemisphere, h, jsKeyString]
  · intro o lat h1 h2 hlat hlon
    have hcond : ¬(o.hemisphere = .vStr "Northern" ∨ o.hemisphere = .vStr "Southern") := by
      rintro (h | h)
      · exact h1 h
      · exact h2 h
    cases hlo : o.longitude <;> rw [hlo] at hlon <;> simp [isNum] at hlon <;>
      simp [inferHemisphere, hcond, hlat, hlo]
  · intro o cc h1 h2 hcoord hcc hcontains
    rw [inferHemisphere_fallthrough o h1 h2 hcoord, hcc]
    have hne : cc ≠ "" := by
      rintro rfl
      exact absurd hcontains (by decide)
    have htr : truthy (.vStr cc) = true := by simp [truthy, hne]
    have hmem : jsToUpper cc ∈ southernCountryCodes := by simpa using hcontains
    simp [htr, isSouthernCountry, hmem]
  · intro o cc h1 h2 hcoord hcc hcontains
    rw [inferHemisphere_fallthrough o h1 h2 hcoord, hcc]
    have hmem : jsToUpper cc ∉ southernCountryCodes := by simpa using hcontains
    by_cases hne : cc = ""
    · subst hne
      simp [truthy]
    · have htr : truthy (.vStr cc) = true := by simp [truthy, hne]
      simp [htr, isSouthernCountry, hmem]
  · intro o h1 h2 hcoord htr
    rw [inferHemisphere_fallthrough o h1 h2 hcoord]
    simp [htr]

/-- Claim C3 witness: explicit hemisphere beats southern coordinates;
both coordinates present beat a southern countryCode; a southern
countryCode alone wins lowercased too. -/
theorem inferHemisphere_precedence_witness :
    inferHemisphere { hemisphere := .vStr "Northern", latitude := .vNum (-50) } =
      some "Northern" ∧
    inferHemisphere
      { latitude := .vNum 7
        longitude := .vNum 3
        countryCode := .vStr "AU" } = some "Northern" ∧
    inferHemisphere { countryCode := .vStr "au" } = some "Southern" :=
  ⟨inferHemisphere_precedence.1
      { hemisphere := .vStr "Northern", latitude := .vNum (-50) } rfl,
   (inferHemisphere_precedence.2.2.1
      { latitude := .vNum 7
        longitude := .vNum 3
        countryCode := .vStr "AU" } 7
      (by decide) (by decide) rfl rfl).trans (by decide),
   inferHemisphere_precedence.2.2.2.1 { countryCode := .vStr "au" } "au"
      (by decide) (by decide) rfl rfl (by decide)⟩

/-- isNum recognizes exactly the number values. -/
theorem isNum_true_iff (v : JSVal) : isNum v = true ↔ ∃ n, v = .vNum n := by
  cases v <;> simp [isNum]

/-- Claim C8 (amended): inferHemisphere never returns anything but
"Northern" or "Southern" when it returns; it is total — degrading to
the Northern default — for every options value whose countryCode is
falsy or a string (whatever the other fields hold), but a truthy
non-string countryCode that survives the first two rules makes it
throw a TypeError at `.toUpperCase()` instead of returning. -/
theorem inferHemisphere_total :
    (∀ (o : SeasonOptions) (h : String), inferHemisphere o = some h →
      h = "Northern" ∨ h = "Southern") ∧
    (∀ o : SeasonOptions,
      truthy o.countryCode = false ∨ (∃ s, o.countryCode = .vStr s) →
      inferHemisphere o = some "Northern" ∨ inferHemisphere o = some "Southern") ∧
    (∀ o : SeasonOptions,
      o.hemisphere ≠ .vStr "Northern" → o.hemisphere ≠ .vStr "Southern" →
      (isNum o.latitude && isNum o.longitude) = false →
      truthy o.countryCode = true → (∀ s, o.countryCode ≠ .vStr s) →
      inferHemisphere o = none) := by
  refine ⟨?_, ?_, ?_⟩
  · intro o h hh
    unfold inferHemisphere at hh
    split at hh
    · rename_i hcond
      rcases hcond with h1 | h1 <;> rw [h1] at hh <;> simp [jsKeyString] at hh <;>
        simp [hh]
    · split at hh
      · split at hh <;> simp at hh <;> simp [hh]
      · split at hh
        · split at hh <;> simp at hh <;> simp [hh]
        · simp at hh
          simp [hh]
  · intro o hdom
    by_cases hcond : o.hemisphere = .vStr "Northern" ∨ o.hemisphere = .vStr "Southern"
    · rcases hcond with h1 | h1
      · left
        simp [inferHemisphere, h1, jsKeyString]
      · right
        simp [inferHemisphere, h1, jsKeyString]
    · have h1 : o.hemisphere ≠ .vStr "Northern" := fun h => hcond (Or.inl h)
      have h2 : o.hemisphere ≠ .vStr "Southern" := fun h => hcond (Or.inr h)
      by_cases hnum : (isNum o.latitude && isNum o.longitude) = true
      · rw [Bool.and_eq_true] at hnum
        obtain ⟨lat, hla⟩ := (isNum_true_iff _).mp hnum.1
        obtain ⟨lon, hlo⟩ := (isNum_true_iff _).mp hnum.2
        rcases le_or_lt 0 lat with hge | hlt
        · left
          simp [inferHemisphere, hcond, hla, hlo, hge]
        · right
          simp [inferHemisphere, hcond, hla, hlo, hlt.not_le]
      · have hcoord : (isNum o.latitude && isNum o.longitude) = false := by
          revert hnum
          cases isNum o.latitude && isNum o.longitude <;> simp
        rw [inferHemisphere_fallthrough o h1 h2 hcoord]
        rcases hdom with htr | ⟨s, hs⟩
        · left
          simp [htr]
        · rw [hs]
          by_cases hne : s = ""
          · left
            subst hne
            simp [truthy]
          · have htr : truthy (.vStr s) = true := by simp [truthy, hne]
            by_cases hmem : jsToUpper s ∈ southernCountryCodes
            · right
              simp [htr, isSouthernCountry, hmem]
            · left
              simp [htr, isSouthernCountry, hmem]
  · intro o h1 h2 hcoord htr hnostr
    rw [inferHemisphere_fallthrough o h1 h2 hcoord]
    simp only [htr, if_true]
    cases hcc : o.countryCode with
    | vStr s => exact absurd hcc (hnostr s)
    | vNum n =>
      rw [hcc] at htr
      simp [isSouthernCountry, htr]
    | vBool b =>
      rw [hcc] at htr
      simp [isSouthernCountry, htr]
    | vNull =>
      rw [hcc] at htr
      simp [truthy] at htr
    | vUndef =>
      rw [hcc] at htr
      simp [truthy] at htr

/-- Claim C8 amended-theorem witness: a string countryCode resolves, a
truthy boolean countryCode throws, and a returned value is one of the
two hemisphere names. -/
theorem inferHemisphere_total_witness :
    (inferHemisphere { countryCode := .vStr "BR" } = some "Northern" ∨
     inferHemisphere { countryCode := .vStr "BR" } = some "Southern") ∧
    inferHemisphere { countryCode := .vBool true } = none ∧
    ("Northern" = "Northern" ∨ "Northern" = "Southern") :=
  ⟨inferHemisphere_total.2.1 { countryCode := .vStr "BR" } (Or.inr ⟨"BR", rfl⟩),
   inferHemisphere_total.2.2 { countryCode := .vBool true }
     (by decide) (by decide) (by decide) (by decide)
     (fun s h => JSVal.noConfusion h),
   inferHemisphere_total.1 ({} : SeasonOptions) "Northern" (by decide)⟩
